import Mathlib

/-!
Verification of the snapping/alignment engine of the pdf-canvas-editor
repository (source: `src/app/page.tsx`, functions `snapToValue`,
`getSnapPoints` and `applySnapping`).

The engine is embedded shallowly: canvas coordinates are rational numbers,
the relevant React component state (`canvasSize`, `canvasImages`,
`snapEnabled`) is collected into an explicit `EditorState` record, and every
function is translated line by line from the TypeScript source.  The
`try`/`catch` wrapper and the `undefined`-point-set guards in
`applySnapping` are unreachable in this embedding (a `SnapPoints` value is
always well-formed), so they are omitted; everything else follows the
source exactly.
-/

attribute [local semireducible] Rat.add Rat.sub Rat.mul Rat.inv

/-- A placed object on the canvas: `canvasImages` list entry.  Only the
fields read by the snapping engine are modelled (rotation is unused). -/
structure CanvasImage where
  id : String
  x : ℚ
  y : ℚ
  width : ℚ
  height : ℚ
deriving DecidableEq

/-- The canvas frame dimensions (`canvasSize` state). -/
structure CanvasSize where
  width : ℚ
  height : ℚ
deriving DecidableEq

/-- The component state read by the snapping engine: the canvas frame, the
list of placed objects, and the global snap-enabled flag. -/
structure EditorState where
  canvasSize : CanvasSize
  canvasImages : List CanvasImage
  snapEnabled : Bool

/-- Result of `getSnapPoints`: vertical (x) and horizontal (y) candidate
alignment coordinates, in insertion order. -/
structure SnapPoints where
  vertical : List ℚ
  horizontal : List ℚ
deriving DecidableEq

/-- One entry of the `snapScenarios` array in `applySnapping`: a candidate
position plus a priority rank. -/
structure SnapScenario where
  x : ℚ
  y : ℚ
  priority : ℚ
deriving DecidableEq

/-- The `{x, y}` record returned by `applySnapping`. -/
structure Pos where
  x : ℚ
  y : ℚ
deriving DecidableEq

/-- `SNAP_TOLERANCE = 10` from the source. -/
def SNAP_TOLERANCE : ℚ := 10

/-- `GRID_SIZE = 20` from the source (used only by `snapToGrid`). -/
def GRID_SIZE : ℚ := 20

/-- `snapToValue(value, snapPoints, tolerance)`: scan the points in order
and return the first one within `tolerance` of `value`, else `value`.  The
source's default argument `tolerance = SNAP_TOLERANCE` is passed explicitly
at every call site. -/
def snapToValue (value : ℚ) (points : List ℚ) (tolerance : ℚ) : ℚ :=
  match points with
  | [] => value
  | point :: rest =>
    if |value - point| ≤ tolerance then point else snapToValue value rest tolerance

/-- The three vertical snap points contributed by one image: left edge,
horizontal center, right edge (`snapPoints.vertical.push` calls). -/
def imageVerticalPoints (img : CanvasImage) : List ℚ :=
  [img.x, img.x + img.width / 2, img.x + img.width]

/-- The three horizontal snap points contributed by one image: top edge,
vertical center, bottom edge (`snapPoints.horizontal.push` calls). -/
def imageHorizontalPoints (img : CanvasImage) : List ℚ :=
  [img.y, img.y + img.height / 2, img.y + img.height]

/-- The `filter` predicate of `getSnapPoints`: keep `img` when
`img.id !== excludeId`. -/
def keepImage (excludeId : Option String) (img : CanvasImage) : Bool :=
  excludeId != some img.id

/-- `getSnapPoints(excludeId)`: seed each axis with the canvas edges and
center, then `forEach`-push the three points of every non-excluded image,
in list order. -/
def getSnapPoints (st : EditorState) (excludeId : Option String) : SnapPoints :=
  (st.canvasImages.filter (keepImage excludeId)).foldl
    (fun sp img =>
      ⟨sp.vertical ++ imageVerticalPoints img, sp.horizontal ++ imageHorizontalPoints img⟩)
    ⟨[0, st.canvasSize.width, st.canvasSize.width / 2],
     [0, st.canvasSize.height, st.canvasSize.height / 2]⟩

/-- The per-scenario tolerance gate of `applySnapping`:
`distanceX <= SNAP_TOLERANCE || distanceY <= SNAP_TOLERANCE`. -/
def eligible (newX newY : ℚ) (s : SnapScenario) : Prop :=
  |s.x - newX| ≤ SNAP_TOLERANCE ∨ |s.y - newY| ≤ SNAP_TOLERANCE

instance (newX newY : ℚ) (s : SnapScenario) : Decidable (eligible newX newY s) :=
  inferInstanceAs (Decidable (|s.x - newX| ≤ SNAP_TOLERANCE ∨ |s.y - newY| ≤ SNAP_TOLERANCE))

/-- The `adjustedDistance` of a scenario:
`totalDistance + (scenario.priority - 1) * 5`. -/
def adjusted (newX newY : ℚ) (s : SnapScenario) : ℚ :=
  |s.x - newX| + |s.y - newY| + (s.priority - 1) * 5

/-- A scenario that can update `bestSnap` regardless of the running
minimum: it passes the tolerance gate and its adjusted distance is below
the absolute ceiling `50`. -/
def okScenario (newX newY : ℚ) (s : SnapScenario) : Prop :=
  eligible newX newY s ∧ adjusted newX newY s < 50

instance (newX newY : ℚ) (s : SnapScenario) : Decidable (okScenario newX newY s) :=
  inferInstanceAs (Decidable (eligible newX newY s ∧ adjusted newX newY s < 50))

/-- Comparison against `minDistance`, whose initial JavaScript value is
`Infinity` (modelled by `none`). -/
def beatsMin (a : ℚ) (m : Option ℚ) : Prop :=
  match m with
  | none => True
  | some v => a < v

instance (a : ℚ) (m : Option ℚ) : Decidable (beatsMin a m) :=
  match m with
  | none => isTrue trivial
  | some v => inferInstanceAs (Decidable (a < v))

/-- The `snapScenarios` array of `applySnapping`, in source order:
left-edge, right-edge, center, bottom-edge. -/
def snapScenarios (sp : SnapPoints) (newX newY width height : ℚ) : List SnapScenario :=
  let left := newX
  let right := newX + width
  let centerX := newX + width / 2
  let top := newY
  let bottom := newY + height
  let centerY := newY + height / 2
  [⟨snapToValue left sp.vertical SNAP_TOLERANCE,
    snapToValue top sp.horizontal SNAP_TOLERANCE, 1⟩,
   ⟨snapToValue right sp.vertical SNAP_TOLERANCE - width,
    snapToValue top sp.horizontal SNAP_TOLERANCE, 1⟩,
   ⟨snapToValue centerX sp.vertical SNAP_TOLERANCE - width / 2,
    snapToValue centerY sp.horizontal SNAP_TOLERANCE - height / 2, 2⟩,
   ⟨snapToValue left sp.vertical SNAP_TOLERANCE,
    snapToValue bottom sp.horizontal SNAP_TOLERANCE - height, 1⟩]

/-- The body of the `snapScenarios.forEach` loop: one update of the pair
`(bestSnap, minDistance)`. -/
def scenarioStep (newX newY : ℚ) (acc : Pos × Option ℚ) (s : SnapScenario) : Pos × Option ℚ :=
  if eligible newX newY s then
    if beatsMin (adjusted newX newY s) acc.2 ∧ adjusted newX newY s < 50 then
      (⟨s.x, s.y⟩, some (adjusted newX newY s))
    else acc
  else acc

/-- `applySnapping(imageId, newX, newY, width, height)`: identity when
snapping is disabled or the canvas has a zero dimension, otherwise the
`bestSnap` left by folding the scenario loop over the scenario array,
starting from `bestSnap = {x: newX, y: newY}` and `minDistance = Infinity`. -/
def applySnapping (st : EditorState) (imageId : String) (newX newY width height : ℚ) : Pos :=
  if st.snapEnabled = false ∨ st.canvasSize.width = 0 ∨ st.canvasSize.height = 0 then
    ⟨newX, newY⟩
  else
    ((snapScenarios (getSnapPoints st (some imageId)) newX newY width height).foldl
      (scenarioStep newX newY) (⟨newX, newY⟩, none)).1

/-- Provider output as the specification words it: each axis is the three
canvas-derived seed points followed by the three points of every
non-excluded placed object, concatenated in list order, duplicates kept. -/
def snapPointsSpec (st : EditorState) (excludeId : Option String) : SnapPoints :=
  ⟨[0, st.canvasSize.width, st.canvasSize.width / 2] ++
      (st.canvasImages.filter (keepImage excludeId)).flatMap imageVerticalPoints,
   [0, st.canvasSize.height, st.canvasSize.height / 2] ++
      (st.canvasImages.filter (keepImage excludeId)).flatMap imageHorizontalPoints⟩

/-- The spec's worked example: an 800 by 600 canvas holding one placed
object at position (100, 100) with width 200 and height 150. -/
def exampleState : EditorState := ⟨⟨800, 600⟩, [⟨"A", 100, 100, 200, 150⟩], true⟩

/-- A state whose snap point lists contain points closer than the tolerance
to each other: object points at x = 335, 345, 355 and y = 100, 110, 120. -/
def crowdedState : EditorState := ⟨⟨800, 600⟩, [⟨"A", 335, 100, 20, 20⟩], true⟩

/-- An 800 by 600 canvas with no placed objects. -/
def emptyState : EditorState := ⟨⟨800, 600⟩, [], true⟩

/-- An 800 by 600 canvas with no placed objects and snapping disabled. -/
def disabledState : EditorState := ⟨⟨800, 600⟩, [], false⟩

/-- Unfolding lemma for `snapToValue` on a cons cell. -/
theorem snapToValue_cons (value point tolerance : ℚ) (rest : List ℚ) :
    snapToValue value (point :: rest) tolerance =
      if |value - point| ≤ tolerance then point else snapToValue value rest tolerance := rfl

/-- Unfolding lemma for `snapToValue` on the empty list. -/
theorem snapToValue_nil (value tolerance : ℚ) : snapToValue value [] tolerance = value := rfl

/-- The value returned by `snapToValue` is within the tolerance of the
input whenever the tolerance is nonnegative. -/
theorem snapToValue_close (value : ℚ) (points : List ℚ) (tolerance : ℚ)
    (ht : 0 ≤ tolerance) : |snapToValue value points tolerance - value| ≤ tolerance := by
  induction points with
  | nil => simpa [snapToValue_nil] using ht
  | cons p rest ih =>
    rw [snapToValue_cons]
    by_cases h : |value - p| ≤ tolerance
    · rw [if_pos h, abs_sub_comm]
      exact h
    · rw [if_neg h]
      exact ih

/-- `beatsMin` against the initial `Infinity` accumulator always holds. -/
theorem beatsMin_none (a : ℚ) : beatsMin a none := trivial

/-- `beatsMin` against a finite accumulator is a strict comparison. -/
theorem beatsMin_some (a v : ℚ) : beatsMin a (some v) ↔ a < v := Iff.rfl

/-- A quantity below one that beats the running minimum also beats it. -/
theorem beatsMin_of_lt {a b : ℚ} {m : Option ℚ} (hab : a < b) (hb : beatsMin b m) :
    beatsMin a m := by
  cases m with
  | none => trivial
  | some v => exact lt_trans hab hb

/-- `scenarioStep` rewritten through `okScenario` and `beatsMin`: the three
source conditions collapse into one gate. -/
theorem scenarioStep_eq (newX newY : ℚ) (acc : Pos × Option ℚ) (s : SnapScenario) :
    scenarioStep newX newY acc s =
      if okScenario newX newY s ∧ beatsMin (adjusted newX newY s) acc.2 then
        (⟨s.x, s.y⟩, some (adjusted newX newY s))
      else acc := by
  unfold scenarioStep okScenario
  split_ifs <;> first | rfl | tauto

/-- If no scenario in the list passes the gate against the running minimum,
the fold leaves the accumulator unchanged. -/
theorem fold_unchanged (newX newY : ℚ) (ss : List SnapScenario) :
    ∀ acc : Pos × Option ℚ,
      (∀ s ∈ ss, ¬(okScenario newX newY s ∧ beatsMin (adjusted newX newY s) acc.2)) →
      ss.foldl (scenarioStep newX newY) acc = acc := by
  induction ss with
  | nil => intro acc _; rfl
  | cons s rest ih =>
    intro acc hall
    have hstep : scenarioStep newX newY acc s = acc := by
      rw [scenarioStep_eq, if_neg (hall s (List.mem_cons_self s rest))]
    rw [List.foldl_cons, hstep]
    exact ih acc fun t ht => hall t (List.mem_cons_of_mem s ht)

/-- First-minimum characterization of the scenario fold: if `s` is the
first scenario whose adjusted distance attains the minimum among scenarios
passing the gate, the fold ends on `s`'s coordinates. -/
theorem fold_firstmin (newX newY : ℚ) :
    ∀ (l₁ : List SnapScenario) (s : SnapScenario) (l₂ : List SnapScenario)
      (b : Pos) (m : Option ℚ),
      okScenario newX newY s →
      beatsMin (adjusted newX newY s) m →
      (∀ t ∈ l₁, okScenario newX newY t → beatsMin (adjusted newX newY t) m →
        adjusted newX newY s < adjusted newX newY t) →
      (∀ t ∈ l₂, okScenario newX newY t → adjusted newX newY s ≤ adjusted newX newY t) →
      (l₁ ++ s :: l₂).foldl (scenarioStep newX newY) (b, m) =
        (⟨s.x, s.y⟩, some (adjusted newX newY s)) := by
  intro l₁
  induction l₁ with
  | nil =>
    intro s l₂ b m hok hbeats _ hafter
    rw [List.nil_append, List.foldl_cons]
    have hstep : scenarioStep newX newY (b, m) s = (⟨s.x, s.y⟩, some (adjusted newX newY s)) := by
      rw [scenarioStep_eq, if_pos ⟨hok, hbeats⟩]
    rw [hstep]
    apply fold_unchanged
    rintro t ht ⟨htok, htbeats⟩
    rw [beatsMin_some] at htbeats
    exact absurd (hafter t ht htok) (not_le_of_lt htbeats)
  | cons u l₁ ih =>
    intro s l₂ b m hok hbeats hbefore hafter
    rw [List.cons_append, List.foldl_cons]
    by_cases hu : okScenario newX newY u ∧ beatsMin (adjusted newX newY u) m
    · have hstep : scenarioStep newX newY (b, m) u = (⟨u.x, u.y⟩, some (adjusted newX newY u)) := by
        rw [scenarioStep_eq, if_pos hu]
      rw [hstep]
      have hlt : adjusted newX newY s < adjusted newX newY u :=
        hbefore u (List.mem_cons_self u l₁) hu.1 hu.2
      refine ih s l₂ ⟨u.x, u.y⟩ (some (adjusted newX newY u)) hok ((beatsMin_some _ _).mpr hlt)
        ?_ hafter
      intro t ht htok htbeats
      rw [beatsMin_some] at htbeats
      exact hbefore t (List.mem_cons_of_mem u ht) htok (beatsMin_of_lt htbeats hu.2)
    · have hstep : scenarioStep newX newY (b, m) u = (b, m) := by
        rw [scenarioStep_eq, if_neg hu]
      rw [hstep]
      exact ih s l₂ b m hok hbeats (fun t ht => hbefore t (List.mem_cons_of_mem u ht)) hafter

/-- Outcome of the scenario fold: either no scenario passed the gate and
the accumulator is untouched, or the final `bestSnap` is the position of a
gate-passing scenario whose adjusted distance is minimal among all
gate-passing scenarios. -/
theorem fold_result_bound (newX newY : ℚ) :
    ∀ (ss : List SnapScenario) (b : Pos) (m : Option ℚ),
      (ss.foldl (scenarioStep newX newY) (b, m) = (b, m) ∧
        ∀ s ∈ ss, ¬(okScenario newX newY s ∧ beatsMin (adjusted newX newY s) m)) ∨
      (∃ s ∈ ss, okScenario newX newY s ∧ beatsMin (adjusted newX newY s) m ∧
        ss.foldl (scenarioStep newX newY) (b, m) = (⟨s.x, s.y⟩, some (adjusted newX newY s)) ∧
        ∀ t ∈ ss, okScenario newX newY t → beatsMin (adjusted newX newY t) m →
          adjusted newX newY s ≤ adjusted newX newY t) := by
  intro ss
  induction ss with
  | nil => intro b m; exact Or.inl ⟨rfl, by simp⟩
  | cons u rest ih =>
    intro b m
    by_cases hu : okScenario newX newY u ∧ beatsMin (adjusted newX newY u) m
    · right
      have hstep : scenarioStep newX newY (b, m) u = (⟨u.x, u.y⟩, some (adjusted newX newY u)) := by
        rw [scenarioStep_eq, if_pos hu]
      rcases ih ⟨u.x, u.y⟩ (some (adjusted newX newY u)) with ⟨heq, hnone⟩ |
        ⟨s, hs, hsok, hsbeats, heq, hmin⟩
      · refine ⟨u, List.mem_cons_self u rest, hu.1, hu.2, ?_, ?_⟩
        · rw [List.foldl_cons, hstep, heq]
        · intro t ht htok htbeats
          rcases List.mem_cons.mp ht with rfl | htrest
          · exact le_refl _
          · have := hnone t htrest
            by_contra hcon
            push_neg at hcon
            exact this ⟨htok, (beatsMin_some _ _).mpr hcon⟩
      · rw [beatsMin_some] at hsbeats
        refine ⟨s, List.mem_cons_of_mem u hs, hsok, beatsMin_of_lt hsbeats hu.2, ?_, ?_⟩
        · rw [List.foldl_cons, hstep, heq]
        · intro t ht htok htbeats
          rcases List.mem_cons.mp ht with rfl | htrest
          · exact le_of_lt hsbeats
          · by_cases hcmp : adjusted newX newY t < adjusted newX newY u
            · exact hmin t htrest htok ((beatsMin_some _ _).mpr hcmp)
            · push_neg at hcmp
              exact le_trans (le_of_lt hsbeats) hcmp
    · have hstep : scenarioStep newX newY (b, m) u = (b, m) := by
        rw [scenarioStep_eq, if_neg hu]
      rcases ih b m with ⟨heq, hnone⟩ | ⟨s, hs, hsok, hsbeats, heq, hmin⟩
      · left
        refine ⟨by rw [List.foldl_cons, hstep, heq], ?_⟩
        intro t ht
        rcases List.mem_cons.mp ht with rfl | htrest
        · exact hu
        · exact hnone t htrest
      · right
        refine ⟨s, List.mem_cons_of_mem u hs, hsok, hsbeats, by rw [List.foldl_cons, hstep, heq], ?_⟩
        intro t ht htok htbeats
        rcases List.mem_cons.mp ht with rfl | htrest
        · exact absurd ⟨htok, htbeats⟩ hu
        · exact hmin t htrest htok htbeats

/-- The scenario array spelled out, with the `left`, `right`, `centerX`,
`top`, `bottom`, `centerY` abbreviations substituted. -/
theorem snapScenarios_eq (sp : SnapPoints) (newX newY width height : ℚ) :
    snapScenarios sp newX newY width height =
      ⟨snapToValue newX sp.vertical SNAP_TOLERANCE,
        snapToValue newY sp.horizontal SNAP_TOLERANCE, 1⟩ ::
      [⟨snapToValue (newX + width) sp.vertical SNAP_TOLERANCE - width,
         snapToValue newY sp.horizontal SNAP_TOLERANCE, 1⟩,
       ⟨snapToValue (newX + width / 2) sp.vertical SNAP_TOLERANCE - width / 2,
         snapToValue (newY + height / 2) sp.horizontal SNAP_TOLERANCE - height / 2, 2⟩,
       ⟨snapToValue newX sp.vertical SNAP_TOLERANCE,
         snapToValue (newY + height) sp.horizontal SNAP_TOLERANCE - height, 1⟩] := rfl

/-- Every scenario in the array carries priority 1 or priority 2. -/
theorem snapScenarios_priority (sp : SnapPoints) (newX newY width height : ℚ) :
    ∀ s ∈ snapScenarios sp newX newY width height, s.priority = 1 ∨ s.priority = 2 := by
  intro s hs
  rw [snapScenarios_eq] at hs
  simp only [List.mem_cons, List.not_mem_nil, or_false] at hs
  rcases hs with rfl | rfl | rfl | rfl
  · exact Or.inl rfl
  · exact Or.inl rfl
  · exact Or.inr rfl
  · exact Or.inl rfl

/-- The adjusted distance of any scenario in the array is nonnegative. -/
theorem snapScenarios_adjusted_nonneg (sp : SnapPoints) (newX newY width height : ℚ) :
    ∀ s ∈ snapScenarios sp newX newY width height, 0 ≤ adjusted newX newY s := by
  intro s hs
  have h1 : (0:ℚ) ≤ |s.x - newX| := abs_nonneg _
  have h2 : (0:ℚ) ≤ |s.y - newY| := abs_nonneg _
  rcases snapScenarios_priority sp newX newY width height s hs with hp | hp <;>
    · unfold adjusted
      rw [hp]
      norm_num
      linarith

/-- With snapping enabled on a nonzero canvas, `applySnapping` is the first
component of the scenario fold. -/
theorem applySnapping_eq_fold (st : EditorState) (imageId : String) (newX newY width height : ℚ)
    (h1 : st.snapEnabled = true) (h2 : st.canvasSize.width ≠ 0)
    (h3 : st.canvasSize.height ≠ 0) :
    applySnapping st imageId newX newY width height =
      ((snapScenarios (getSnapPoints st (some imageId)) newX newY width height).foldl
        (scenarioStep newX newY) (⟨newX, newY⟩, none)).1 := by
  unfold applySnapping
  rw [if_neg]
  push_neg
  exact ⟨by simp [h1], h2, h3⟩

/-- The provider fold, started from arbitrary seed lists, appends the
per-image points of the whole list in order. -/
theorem provider_foldl_eq (l : List CanvasImage) :
    ∀ v h : List ℚ,
      l.foldl (fun sp img =>
          ⟨sp.vertical ++ imageVerticalPoints img, sp.horizontal ++ imageHorizontalPoints img⟩)
        (⟨v, h⟩ : SnapPoints) =
        ⟨v ++ l.flatMap imageVerticalPoints, h ++ l.flatMap imageHorizontalPoints⟩ := by
  induction l with
  | nil => intro v h; simp
  | cons img rest ih =>
    intro v h
    rw [List.foldl_cons, ih]
    simp [List.flatMap_cons, List.append_assoc]

/-- The `forEach`-push construction of `getSnapPoints` coincides with the
seed-plus-concatenation description. -/
theorem getSnapPoints_eq_spec (st : EditorState) (excludeId : Option String) :
    getSnapPoints st excludeId = snapPointsSpec st excludeId := by
  unfold getSnapPoints snapPointsSpec
  rw [provider_foldl_eq]

/-- If no point of the list lies within the tolerance of the value,
`snapToValue` returns the value unchanged. -/
theorem snapToValue_of_no_match (value tolerance : ℚ) :
    ∀ points : List ℚ, (∀ p ∈ points, ¬|value - p| ≤ tolerance) →
      snapToValue value points tolerance = value := by
  intro points
  induction points with
  | nil => intro _; rfl
  | cons p rest ih =>
    intro hall
    rw [snapToValue_cons, if_neg (hall p (List.mem_cons_self p rest))]
    exact ih fun q hq => hall q (List.mem_cons_of_mem p hq)

/-- If `p` is within tolerance and every point before it is not,
`snapToValue` returns `p`. -/
theorem snapToValue_firstmatch (value tolerance : ℚ) :
    ∀ (l₁ : List ℚ) (p : ℚ) (l₂ : List ℚ), |value - p| ≤ tolerance →
      (∀ q ∈ l₁, ¬|value - q| ≤ tolerance) →
      snapToValue value (l₁ ++ p :: l₂) tolerance = p := by
  intro l₁
  induction l₁ with
  | nil =>
    intro p l₂ hp _
    rw [List.nil_append, snapToValue_cons, if_pos hp]
  | cons q l₁ ih =>
    intro p l₂ hp hbefore
    rw [List.cons_append, snapToValue_cons,
      if_neg (hbefore q (List.mem_cons_self q l₁))]
    exact ih p l₂ hp fun r hr => hbefore r (List.mem_cons_of_mem q hr)

/-- C1: the spec's worked example is wrong about the code.  On an 800 by
600 canvas with one object at (100, 100, 200, 150) and proposed geometry
(105, 98, 50, 50), `applySnapping` does not return `{x: 100, y: 100}`:
the right-edge scenario scores 2 and beats the left-edge scenario's 7. -/
theorem spec_C1_counterexample :
    applySnapping exampleState "B" 105 98 50 50 ≠ ⟨100, 100⟩ := by decide

/-- C1 (amended): on the spec's worked example the code returns
`{x: 105, y: 100}` — the right-edge scenario (distanceX 0, distanceY 2,
score 2) wins over the left-edge scenario (score 7). -/
theorem spec_C1 : applySnapping exampleState "B" 105 98 50 50 = ⟨105, 100⟩ := by decide

/-- C2: being exactly a snap point pair is not enough for idempotence.  In
`crowdedState` the vertical points are [0, 800, 400, 335, 345, 355] and the
horizontal points [0, 600, 300, 100, 110, 120]; the pair (345, 100) is a
snap point pair and the widths are positive, yet `applySnapping` moves it
to (350, 100): 345 first-match snaps to 335 ten units away, so the
left-edge scenario scores 10, and the right edge 395 snaps to the canvas
point 400, letting the right-edge scenario win with score 5. -/
theorem spec_C2_counterexample :
    (345 : ℚ) ∈ (getSnapPoints crowdedState (some "B")).vertical ∧
    (100 : ℚ) ∈ (getSnapPoints crowdedState (some "B")).horizontal ∧
    (0 : ℚ) < 50 ∧ (0 : ℚ) < 50 ∧
    applySnapping crowdedState "B" 345 100 50 50 ≠ ⟨345, 100⟩ := by decide

/-- C2 (amended): `applySnapping` is idempotent once settled when the
proposed pair is a snap point pair and, in addition, each coordinate is the
first point of its axis list within tolerance of itself (that is,
`snapToValue` is the identity on it).  Then the left-edge scenario is
exactly the proposed position with adjusted distance 0, and no scenario
can strictly beat 0. -/
theorem spec_C2 (st : EditorState) (imageId : String) (x y width height : ℚ)
    (hxmem : x ∈ (getSnapPoints st (some imageId)).vertical)
    (hymem : y ∈ (getSnapPoints st (some imageId)).horizontal)
    (hw : 0 < width) (hh : 0 < height)
    (hx : snapToValue x (getSnapPoints st (some imageId)).vertical SNAP_TOLERANCE = x)
    (hy : snapToValue y (getSnapPoints st (some imageId)).horizontal SNAP_TOLERANCE = y) :
    applySnapping st imageId x y width height = ⟨x, y⟩ := by
  by_cases hguard : st.snapEnabled = false ∨ st.canvasSize.width = 0 ∨ st.canvasSize.height = 0
  · unfold applySnapping
    rw [if_pos hguard]
  · push_neg at hguard
    obtain ⟨hen, hwc, hhc⟩ := hguard
    have hen' : st.snapEnabled = true := by revert hen; cases st.snapEnabled <;> simp
    rw [applySnapping_eq_fold st imageId x y width height hen' hwc hhc]
    obtain ⟨rest, hlist⟩ : ∃ rest,
        snapScenarios (getSnapPoints st (some imageId)) x y width height =
          (⟨x, y, 1⟩ : SnapScenario) :: rest :=
      ⟨[⟨snapToValue (x + width) (getSnapPoints st (some imageId)).vertical
            SNAP_TOLERANCE - width, y, 1⟩,
        ⟨snapToValue (x + width / 2) (getSnapPoints st (some imageId)).vertical
            SNAP_TOLERANCE - width / 2,
          snapToValue (y + height / 2) (getSnapPoints st (some imageId)).horizontal
            SNAP_TOLERANCE - height / 2, 2⟩,
        ⟨x, snapToValue (y + height) (getSnapPoints st (some imageId)).horizontal
            SNAP_TOLERANCE - height, 1⟩],
       by rw [snapScenarios_eq, hx, hy]⟩
    have hadj : adjusted x y ⟨x, y, 1⟩ = 0 := by
      unfold adjusted
      norm_num
    have hok : okScenario x y ⟨x, y, 1⟩ := by
      refine ⟨Or.inl ?_, ?_⟩
      · show |x - x| ≤ SNAP_TOLERANCE
        rw [sub_self, abs_zero]
        norm_num [SNAP_TOLERANCE]
      · rw [hadj]
        norm_num
    have hafter : ∀ t ∈ rest, okScenario x y t →
        adjusted x y ⟨x, y, 1⟩ ≤ adjusted x y t := by
      intro t ht _
      rw [hadj]
      refine snapScenarios_adjusted_nonneg (getSnapPoints st (some imageId)) x y width height t ?_
      rw [hlist]
      exact List.mem_cons_of_mem _ ht
    have hfold := fold_firstmin x y [] ⟨x, y, 1⟩ rest ⟨x, y⟩ none hok (beatsMin_none _)
      (fun t ht => absurd ht (List.not_mem_nil t)) hafter
    rw [List.nil_append] at hfold
    rw [hlist, hfold]

/-- C2 witness: a settled pair on the empty canvas stays fixed. -/
theorem spec_C2_witness : applySnapping emptyState "B" 0 300 50 50 = ⟨0, 300⟩ :=
  spec_C2 emptyState "B" 0 300 50 50 (by decide) (by decide) (by decide) (by decide)
    (by decide) (by decide)

/-- C3: scenario selection rule.  With snapping enabled on a nonzero
canvas, a scenario can be selected exactly when it passes the
either-axis tolerance gate with an adjusted score
`(distanceX + distanceY) + (priority - 1) * 5` below 50 (`okScenario`): if
no scenario qualifies, the proposed position is returned unchanged, and
otherwise the result is the coordinates of a qualifying scenario of
minimum adjusted score. -/
theorem spec_C3 (st : EditorState) (imageId : String) (newX newY width height : ℚ)
    (h1 : st.snapEnabled = true) (h2 : st.canvasSize.width ≠ 0)
    (h3 : st.canvasSize.height ≠ 0) :
    ((∀ s ∈ snapScenarios (getSnapPoints st (some imageId)) newX newY width height,
        ¬okScenario newX newY s) →
      applySnapping st imageId newX newY width height = ⟨newX, newY⟩) ∧
    (∀ s₀ ∈ snapScenarios (getSnapPoints st (some imageId)) newX newY width height,
      okScenario newX newY s₀ →
      ∃ s ∈ snapScenarios (getSnapPoints st (some imageId)) newX newY width height,
        okScenario newX newY s ∧
        applySnapping st imageId newX newY width height = ⟨s.x, s.y⟩ ∧
        ∀ t ∈ snapScenarios (getSnapPoints st (some imageId)) newX newY width height,
          okScenario newX newY t → adjusted newX newY s ≤ adjusted newX newY t) := by
  rw [applySnapping_eq_fold st imageId newX newY width height h1 h2 h3]
  constructor
  · intro hall
    have h := fold_unchanged newX newY
      (snapScenarios (getSnapPoints st (some imageId)) newX newY width height)
      (⟨newX, newY⟩, none) (fun s hs hcon => hall s hs hcon.1)
    rw [h]
  · intro s₀ hs₀ hok₀
    rcases fold_result_bound newX newY
        (snapScenarios (getSnapPoints st (some imageId)) newX newY width height)
        ⟨newX, newY⟩ none with ⟨_, hnone⟩ | ⟨s, hs, hsok, _, heq, hmin⟩
    · exact absurd ⟨hok₀, beatsMin_none _⟩ (hnone s₀ hs₀)
    · exact ⟨s, hs, hsok, by rw [heq],
        fun t ht htok => hmin t ht htok (beatsMin_none _)⟩

/-- C3 witness: on the worked example the selected scenario is the
right-edge one with coordinates (105, 100) and minimal score 2. -/
theorem spec_C3_witness :
    ∃ s ∈ snapScenarios (getSnapPoints exampleState (some "B")) 105 98 50 50,
      okScenario 105 98 s ∧
      applySnapping exampleState "B" 105 98 50 50 = ⟨s.x, s.y⟩ ∧
      ∀ t ∈ snapScenarios (getSnapPoints exampleState (some "B")) 105 98 50 50,
        okScenario 105 98 t → adjusted 105 98 s ≤ adjusted 105 98 t :=
  (spec_C3 exampleState "B" 105 98 50 50 rfl (by decide) (by decide)).2
    ⟨100, 100, 1⟩ (by decide) (by decide)

/-- C4: identity pass-through.  When the snap-enabled flag is false, or
either canvas dimension is zero, `applySnapping` echoes the proposed
position for every object id and geometry. -/
theorem spec_C4 (st : EditorState) (imageId : String) (newX newY width height : ℚ)
    (hcond : st.snapEnabled = false ∨ st.canvasSize.width = 0 ∨ st.canvasSize.height = 0) :
    applySnapping st imageId newX newY width height = ⟨newX, newY⟩ := by
  unfold applySnapping
  rw [if_pos hcond]

/-- C4 witness: with snapping disabled the proposed position is echoed. -/
theorem spec_C4_witness : applySnapping disabledState "B" 5 7 50 50 = ⟨5, 7⟩ :=
  spec_C4 disabledState "B" 5 7 50 50 (Or.inl rfl)

/-- C5: self-exclusion.  Deleting an object whose id is the excluded id
from the placed-object list does not change `getSnapPoints` at all: no
point of the output is derived from the excluded object.  Points
contributed by the canvas or by other objects are untouched even when they
coincide in value with the excluded object's points. -/
theorem spec_C5 (st : EditorState) (imageId : String) (l₁ : List CanvasImage)
    (img : CanvasImage) (l₂ : List CanvasImage)
    (hsplit : st.canvasImages = l₁ ++ img :: l₂) (hid : img.id = imageId) :
    getSnapPoints st (some imageId) =
      getSnapPoints ⟨st.canvasSize, l₁ ++ l₂, st.snapEnabled⟩ (some imageId) := by
  have hdrop : keepImage (some imageId) img = false := by
    unfold keepImage
    rw [hid]
    simp
  unfold getSnapPoints
  rw [hsplit]
  simp only [List.filter_append, List.filter_cons, hdrop]
  rfl

/-- C5 witness: in the worked-example state, excluding the only object
leaves exactly the canvas-derived points. -/
theorem spec_C5_witness :
    getSnapPoints exampleState (some "A") = getSnapPoints ⟨⟨800, 600⟩, [], true⟩ (some "A") :=
  spec_C5 exampleState "A" [] ⟨"A", 100, 100, 200, 150⟩ [] rfl rfl

/-- C6: first-match semantics of `snapToValue`.  For every value,
point sequence and tolerance: if no point is within tolerance the value is
returned unchanged, and whenever the sequence splits as `l₁ ++ p :: l₂`
with `p` within tolerance and everything in `l₁` out of tolerance, the
returned point is `p` — the first match in sequence order, not necessarily
the nearest point. -/
theorem spec_C6 (value : ℚ) (points : List ℚ) (tolerance : ℚ) :
    ((∀ p ∈ points, ¬|value - p| ≤ tolerance) →
      snapToValue value points tolerance = value) ∧
    (∀ (l₁ : List ℚ) (p : ℚ) (l₂ : List ℚ), points = l₁ ++ p :: l₂ →
      |value - p| ≤ tolerance → (∀ q ∈ l₁, ¬|value - q| ≤ tolerance) →
      snapToValue value points tolerance = p) := by
  constructor
  · exact snapToValue_of_no_match value tolerance points
  · intro l₁ p l₂ hsplit hp hbefore
    rw [hsplit]
    exact snapToValue_firstmatch value tolerance l₁ p l₂ hp hbefore

/-- C6 witness: 5 snaps to the first in-tolerance point 0 of
[0, 800, 400] even though no other point is close, and 300 is returned
unchanged on [0] where nothing is in tolerance. -/
theorem spec_C6_witness :
    snapToValue 5 [0, 800, 400] 10 = 0 ∧ snapToValue 300 [0] 10 = 300 :=
  ⟨(spec_C6 5 [0, 800, 400] 10).2 [] 0 [800, 400] rfl (by decide) (by decide),
   (spec_C6 300 [0] 10).1 (by decide)⟩

/-- C7: provider construction.  `getSnapPoints` equals the specification's
description — three canvas-derived seeds per axis followed by the three
points of each non-excluded object in list order, duplicates kept — and
when every placed object is excluded each axis degenerates to exactly the
three canvas-derived points. -/
theorem spec_C7 (st : EditorState) (excludeId : Option String) :
    getSnapPoints st excludeId = snapPointsSpec st excludeId ∧
    ((∀ img ∈ st.canvasImages, excludeId = some img.id) →
      getSnapPoints st excludeId =
        ⟨[0, st.canvasSize.width, st.canvasSize.width / 2],
         [0, st.canvasSize.height, st.canvasSize.height / 2]⟩) := by
  refine ⟨getSnapPoints_eq_spec st excludeId, ?_⟩
  intro hall
  have hnil : st.canvasImages.filter (keepImage excludeId) = [] := by
    rw [List.filter_eq_nil_iff]
    intro img himg
    have := hall img himg
    unfold keepImage
    rw [this]
    simp
  unfold getSnapPoints
  rw [hnil]
  rfl

/-- C7 witness: excluding the only object of the worked-example state
leaves the three canvas points per axis, and the spec-shaped description
agrees with the implementation there. -/
theorem spec_C7_witness :
    getSnapPoints exampleState (some "A") = snapPointsSpec exampleState (some "A") ∧
    getSnapPoints exampleState (some "A") = ⟨[0, 800, 400], [0, 600, 300]⟩ := by
  have h := spec_C7 exampleState (some "A")
  refine ⟨h.1, ?_⟩
  have h2 := h.2 (by decide)
  rw [h2]
  decide

/-- C8: determinism.  `applySnapping` reads only the placed-object list,
the canvas frame and the snap-enabled flag from the ambient state; two
states agreeing on those, given the same object id and proposed geometry,
produce identical results. -/
theorem spec_C8 (st₁ st₂ : EditorState) (himg : st₁.canvasImages = st₂.canvasImages)
    (hcanvas : st₁.canvasSize = st₂.canvasSize) (hflag : st₁.snapEnabled = st₂.snapEnabled)
    (imageId : String) (newX newY width height : ℚ) :
    applySnapping st₁ imageId newX newY width height =
      applySnapping st₂ imageId newX newY width height := by
  have heq : st₁ = st₂ := by
    cases st₁
    cases st₂
    simp_all
  rw [heq]

/-- C8 witness: repeated evaluation on the worked example agrees. -/
theorem spec_C8_witness :
    applySnapping exampleState "B" 105 98 50 50 =
      applySnapping exampleState "B" 105 98 50 50 :=
  spec_C8 exampleState exampleState rfl rfl rfl "B" 105 98 50 50

/-- C9: bounded displacement.  With snapping enabled on a nonzero canvas,
the left-edge scenario always passes the gate with adjusted distance at
most `2 * SNAP_TOLERANCE`, so the result is always the coordinates of some
scenario (the identity fallback of the selection loop is never kept) and
its displacement from the proposal is at most `2 * SNAP_TOLERANCE = 20`. -/
theorem spec_C9 (st : EditorState) (imageId : String) (newX newY width height : ℚ)
    (h1 : st.snapEnabled = true) (h2 : st.canvasSize.width ≠ 0)
    (h3 : st.canvasSize.height ≠ 0) :
    |(applySnapping st imageId newX newY width height).x - newX| +
        |(applySnapping st imageId newX newY width height).y - newY| ≤ 2 * SNAP_TOLERANCE ∧
    ∃ s ∈ snapScenarios (getSnapPoints st (some imageId)) newX newY width height,
      applySnapping st imageId newX newY width height = ⟨s.x, s.y⟩ := by
  rw [applySnapping_eq_fold st imageId newX newY width height h1 h2 h3]
  have htol : (0 : ℚ) ≤ SNAP_TOLERANCE := by norm_num [SNAP_TOLERANCE]
  obtain ⟨s1, hs1⟩ : ∃ s1 : SnapScenario, s1 =
      ⟨snapToValue newX (getSnapPoints st (some imageId)).vertical SNAP_TOLERANCE,
       snapToValue newY (getSnapPoints st (some imageId)).horizontal SNAP_TOLERANCE, 1⟩ :=
    ⟨_, rfl⟩
  have h1x : |s1.x - newX| ≤ SNAP_TOLERANCE := by
    rw [hs1]
    exact snapToValue_close newX (getSnapPoints st (some imageId)).vertical _ htol
  have h1y : |s1.y - newY| ≤ SNAP_TOLERANCE := by
    rw [hs1]
    exact snapToValue_close newY (getSnapPoints st (some imageId)).horizontal _ htol
  have hadj1 : adjusted newX newY s1 = |s1.x - newX| + |s1.y - newY| := by
    unfold adjusted
    rw [hs1]
    norm_num
  have hok1 : okScenario newX newY s1 := by
    refine ⟨Or.inl h1x, ?_⟩
    rw [hadj1]
    have hceil : (2 : ℚ) * SNAP_TOLERANCE < 50 := by norm_num [SNAP_TOLERANCE]
    linarith
  have hmem1 : s1 ∈ snapScenarios (getSnapPoints st (some imageId)) newX newY width height := by
    rw [snapScenarios_eq, hs1]
    exact List.mem_cons_self _ _
  rcases fold_result_bound newX newY
      (snapScenarios (getSnapPoints st (some imageId)) newX newY width height)
      ⟨newX, newY⟩ none with ⟨_, hnone⟩ | ⟨s, hs, _, _, heq, hmin⟩
  · exact absurd ⟨hok1, beatsMin_none _⟩ (hnone s1 hmem1)
  · have hprio : 0 ≤ (s.priority - 1) * 5 := by
      rcases snapScenarios_priority (getSnapPoints st (some imageId))
          newX newY width height s hs with hp | hp <;>
        rw [hp] <;> norm_num
    have hsle : adjusted newX newY s ≤ 2 * SNAP_TOLERANCE := by
      have hm := hmin s1 hmem1 hok1 (beatsMin_none _)
      rw [hadj1] at hm
      linarith
    have hform : adjusted newX newY s =
        |s.x - newX| + |s.y - newY| + (s.priority - 1) * 5 := rfl
    have hdisp : |s.x - newX| + |s.y - newY| ≤ 2 * SNAP_TOLERANCE := by linarith
    rw [heq]
    exact ⟨hdisp, s, hs, rfl⟩

/-- C9 witness: on the worked example the result is a scenario position
and moves the proposal by at most 20 units. -/
theorem spec_C9_witness :
    |(applySnapping exampleState "B" 105 98 50 50).x - 105| +
        |(applySnapping exampleState "B" 105 98 50 50).y - 98| ≤ 2 * SNAP_TOLERANCE ∧
    ∃ s ∈ snapScenarios (getSnapPoints exampleState (some "B")) 105 98 50 50,
      applySnapping exampleState "B" 105 98 50 50 = ⟨s.x, s.y⟩ :=
  spec_C9 exampleState "B" 105 98 50 50 rfl (by decide) (by decide)

/-- C10: tie-breaking.  The scenarios are evaluated in the fixed order
left-edge, right-edge, center, bottom-edge of the `snapScenarios` list,
and `bestSnap` is replaced only on a strictly smaller adjusted score, so
whenever `s` is a qualifying scenario strictly better than every earlier
qualifying scenario and at least as good as every later one — in
particular the earliest of several qualifying scenarios sharing the
minimal score — the result is `s`'s coordinates. -/
theorem spec_C10 (st : EditorState) (imageId : String) (newX newY width height : ℚ)
    (h1 : st.snapEnabled = true) (h2 : st.canvasSize.width ≠ 0)
    (h3 : st.canvasSize.height ≠ 0)
    (l₁ : List SnapScenario) (s : SnapScenario) (l₂ : List SnapScenario)
    (hsplit : snapScenarios (getSnapPoints st (some imageId)) newX newY width height =
      l₁ ++ s :: l₂)
    (hok : okScenario newX newY s)
    (hbefore : ∀ t ∈ l₁, okScenario newX newY t →
      adjusted newX newY s < adjusted newX newY t)
    (hafter : ∀ t ∈ l₂, okScenario newX newY t →
      adjusted newX newY s ≤ adjusted newX newY t) :
    applySnapping st imageId newX newY width height = ⟨s.x, s.y⟩ := by
  rw [applySnapping_eq_fold st imageId newX newY width height h1 h2 h3, hsplit,
    fold_firstmin newX newY l₁ s l₂ ⟨newX, newY⟩ none hok (beatsMin_none _)
      (fun t ht htok _ => hbefore t ht htok) hafter]

/-- C10 witness: on an empty canvas with proposal (0, 0) all four
scenarios tie at the proposal; the earliest (left-edge) scenario is the
result. -/
theorem spec_C10_witness : applySnapping emptyState "B" 0 0 50 50 = ⟨0, 0⟩ :=
  spec_C10 emptyState "B" 0 0 50 50 rfl (by decide) (by decide)
    [] ⟨0, 0, 1⟩ [⟨0, 0, 1⟩, ⟨0, 0, 2⟩, ⟨0, 0, 1⟩]
    (by decide) (by decide) (by decide) (by decide)
